import Mathlib

/-!
Shallow embedding of the session/interaction core of the `gpt5-pro` CLI
(`src/chatgpt.ts`, `src/credentials.ts`).  Strings are modelled as
`List Char`; JavaScript's `toLowerCase`, `trim`, `replace(/[\s_]+/g, "-")`,
`String.prototype.includes` are modelled by executable functions below.
Stateful browser interaction is modelled by explicit oracles (drivers) and
event traces; wall-clock polling loops are modelled with an explicit time
counter advanced by the poll interval, with a fuel argument for termination.
-/

/-- Models the JavaScript whitespace class used by `trim` and the regex
class handled in this code base (space, tab, line feed, carriage return,
vertical tab, form feed, no-break space, BOM). -/
def isJsSpace (c : Char) : Bool :=
  c == ' ' || c == '\t' || c == '\n' || c == '\r' || c == '\x0b' ||
    c == '\x0c' || c == '\u00A0' || c == '\uFEFF'

/-- A character matched by the regex class in `replace(/[\s_]+/g, "-")`. -/
def isSepChar (c : Char) : Bool :=
  isJsSpace c || c == '_'

/-- Models `String.prototype.toLowerCase` (character-wise lowering). -/
def toLowerChars (l : List Char) : List Char :=
  l.map Char.toLower

/-- Models `String.prototype.trim`: drop whitespace from both ends. -/
def trimChars (l : List Char) : List Char :=
  List.rdropWhile isJsSpace (List.dropWhile isJsSpace l)

/-- Helper for `collapseSeps`: the boolean records whether we are inside a
run of separator characters that has already emitted its single dash. -/
def collapseSepsAux : List Char → Bool → List Char
  | [], _ => []
  | c :: rest, inRun =>
    if isSepChar c then
      if inRun then collapseSepsAux rest true
      else '-' :: collapseSepsAux rest true
    else c :: collapseSepsAux rest false

/-- Models `replace(/[\s_]+/g, "-")`: every maximal run of whitespace or
underscore characters is replaced by a single dash. -/
def collapseSeps (l : List Char) : List Char :=
  collapseSepsAux l false

/-- `listStartsWith hay pat`: `pat` occurs at the front of `hay`. -/
def listStartsWith : List Char → List Char → Bool
  | _, [] => true
  | [], _ :: _ => false
  | h :: hs, p :: ps => h == p && listStartsWith hs ps

/-- Models `String.prototype.includes`: `pat` occurs contiguously somewhere
in `hay`. -/
def containsSub (hay pat : List Char) : Bool :=
  match hay with
  | [] => listStartsWith [] pat
  | c :: rest => listStartsWith (c :: rest) pat || containsSub rest pat

/-- Models `code.replace(/\s+/g, "")` in the 2FA handling. -/
def stripAllWhitespace (l : List Char) : List Char :=
  l.filter (fun c => !isJsSpace c)

/-- `ModelPreStep` of `chatgpt.ts` (both fields optional). -/
structure ModelPreStep where
  testId : Option (List Char)
  text : Option (List Char)
deriving DecidableEq

/-- `ModelDefinition` of `chatgpt.ts`; `preSteps` is optional there. -/
structure ModelDefinition where
  key : List Char
  displayName : List Char
  verifyTokens : List (List Char)
  optionTestIds : List (List Char)
  fallbackTexts : List (List Char)
  preSteps : Option (List ModelPreStep)
deriving DecidableEq

/-- The static catalog built by `buildModelDefinitions` (lines 544-598),
as an association list from record key to entry. -/
def modelDefinitions : List (List Char × ModelDefinition) :=
  [ ("gpt-5".data,
      ⟨"gpt-5".data, "GPT-5 Auto".data,
        ["chatgpt 5".data, "gpt-5".data],
        ["model-switcher-gpt-5".data],
        ["GPT-5".data, "Auto".data], none⟩),
    ("gpt-5-auto".data,
      ⟨"gpt-5-auto".data, "GPT-5 Auto".data,
        ["chatgpt 5".data, "gpt-5".data],
        ["model-switcher-gpt-5".data],
        ["GPT-5".data, "Auto".data], none⟩),
    ("gpt-5-instant".data,
      ⟨"gpt-5-instant".data, "GPT-5 Instant".data,
        ["instant".data],
        ["model-switcher-gpt-5-instant".data],
        ["Instant".data], none⟩),
    ("gpt-5-thinking".data,
      ⟨"gpt-5-thinking".data, "GPT-5 Thinking".data,
        ["thinking".data],
        ["model-switcher-gpt-5-thinking".data],
        ["Thinking".data], none⟩),
    ("gpt-5-pro".data,
      ⟨"gpt-5-pro".data, "GPT-5 Pro".data,
        ["pro".data],
        ["model-switcher-gpt-5-pro".data],
        ["Pro".data], none⟩),
    ("gpt-4o".data,
      ⟨"gpt-4o".data, "GPT-4o".data,
        ["gpt-4o".data],
        ["model-switcher-gpt-4o".data],
        ["GPT-4o".data],
        some [⟨some "Legacy models-submenu".data, none⟩]⟩),
    ("gpt-4o-mini".data,
      ⟨"gpt-4o-mini".data, "GPT-4o mini".data,
        ["gpt-4o mini".data, "mini".data],
        ["model-switcher-gpt-4o-mini".data],
        ["GPT-4o mini".data],
        some [⟨some "Legacy models-submenu".data, none⟩]⟩) ]

/-- The static `aliasMap` of `resolveModelDefinition` (lines 602-620). -/
def aliasPairs : List (List Char × List Char) :=
  [ ("chatgpt-5".data, "gpt-5".data),
    ("gpt5".data, "gpt-5".data),
    ("gpt5-auto".data, "gpt-5".data),
    ("gpt5-pro".data, "gpt-5-pro".data),
    ("gpt5-instant".data, "gpt-5-instant".data),
    ("gpt5-thinking".data, "gpt-5-thinking".data),
    ("gpt-5auto".data, "gpt-5".data),
    ("gpt-5pro".data, "gpt-5-pro".data),
    ("gpt-5instant".data, "gpt-5-instant".data),
    ("gpt-5thinking".data, "gpt-5-thinking".data),
    ("gpt-4".data, "gpt-4o".data),
    ("gpt4".data, "gpt-4o".data),
    ("gpt4o".data, "gpt-4o".data),
    ("gpt4omini".data, "gpt-4o-mini".data),
    ("gpt-4omini".data, "gpt-4o-mini".data),
    ("gpt-4o-mini".data, "gpt-4o-mini".data),
    ("gpt-4o-mini-high".data, "gpt-4o-mini".data) ]

/-- `modelName.trim().toLowerCase().replace(/[\s_]+/g, "-")` (line 601). -/
def normalizeModelName (modelName : List Char) : List Char :=
  collapseSeps (toLowerChars (trimChars modelName))

/-- `resolveModelDefinition` (lines 600-624): normalize, run through the
alias table, look up the catalog; unresolved names give `none`. -/
def resolveModelDefinition (modelName : List Char) : Option ModelDefinition :=
  let normalized := normalizeModelName modelName
  let key := (aliasPairs.lookup normalized).getD normalized
  modelDefinitions.lookup key

/-- `isModelAlreadySelected` (lines 626-635).  The label argument is the
trigger's `textContent`; `none` covers both a `null` text content and a
thrown locator error (the `catch` branch), both of which yield `false`. -/
def isModelAlreadySelected (labelRaw : Option (List Char))
    (definition : ModelDefinition) : Bool :=
  match labelRaw with
  | none => false
  | some raw =>
    let label := toLowerChars raw
    definition.verifyTokens.any fun token => containsSub label token

/-- The `longRunningModels` list of `getResponseTimeout` (lines 910-917). -/
def longRunningModels : List (List Char) :=
  [ "gpt-5".data, "gpt5".data, "gpt-5-pro".data, "gpt5-pro".data,
    "gpt-5-thinking".data, "gpt5-thinking".data ]

/-- The 30-minute long-running floor, in milliseconds (line 920). -/
def longRunningFloorMs : Nat := 30 * 60 * 1000

/-- `this.model.toLowerCase().replace(/[\s_]+/g, "-")` followed by the
`some`-membership test of `getResponseTimeout` (lines 918-919). -/
def requiresLongTimeout (model : List Char) : Bool :=
  longRunningModels.any fun name =>
    containsSub (collapseSeps (toLowerChars model)) name

/-- `getResponseTimeout` (lines 908-922): the effective deadline duration is
`max(base, minimum)` where `minimum` is the 30-minute floor for slow-family
models and `0` otherwise. -/
def getResponseTimeout (base : Nat) (model : List Char) : Nat :=
  let minimum := if requiresLongTimeout model then longRunningFloorMs else 0
  max base minimum

/-- The timeout error message `Response timeout after ${responseTimeout}ms`
thrown at lines 747 and 801. -/
def timeoutMessage (responseTimeout : Nat) : List Char :=
  "Response timeout after ".data ++ (toString responseTimeout).data ++ "ms".data

/-- The error message thrown at line 789. -/
def emptyResponseMessage : List Char :=
  "Empty response received".data

/-- The arrival-phase polling loop of `query` (lines 726-743).  `countAt t`
is the assistant-message count the page reports at elapsed time `t`; time
starts at `0` and advances by `poll` on each `waitForTimeout`.  `fuel`
bounds the number of waits (the code itself is bounded by the wall clock);
the result is the elapsed time at loop exit together with whether a new
message was detected, or `none` if fuel ran out first. -/
def arrivalLoop (countAt : Nat → Nat) (initialMessages deadline poll : Nat) :
    Nat → Nat → Option (Nat × Bool)
  | t, fuel =>
    if t < deadline then
      if initialMessages < countAt t then some (t, true)
      else
        match fuel with
        | 0 => none
        | fuel' + 1 =>
          arrivalLoop countAt initialMessages deadline poll (t + poll) fuel'
    else some (t, false)

/-- The arrival phase of `query` including the post-loop confirmation check
(lines 745-748): re-read the count at loop exit; if it has not exceeded the
baseline, throw the timeout error, else proceed (with the exit time). -/
def queryArrival (countAt : Nat → Nat)
    (initialMessages deadline poll fuel : Nat) :
    Option (Except (List Char) Nat) :=
  match arrivalLoop countAt initialMessages deadline poll 0 fuel with
  | none => none
  | some (t, _) =>
    if initialMessages < countAt t then some (Except.ok t)
    else some (Except.error (timeoutMessage deadline))

/-- `requiredStableChecks` (line 753). -/
def requiredStableChecks : Nat := 3

/-- The stabilization phase of `query` (lines 750-801), driven by the
sequence of rendered texts of the last assistant message observed at the
successive polls.  The list ending models the deadline elapsing (line 755
failing) before another observation, which throws the timeout error
(line 801).  `copyResult` is the value `copyAssistantResponse` would yield
at finalization (`none` for a failed copy), applied as in lines 792-797:
a non-empty-after-trim clipboard value is returned trimmed, otherwise the
plain trimmed rendered text. -/
def stabilizeLoop (responseTimeout : Nat) (copyResult : Option (List Char)) :
    List (List Char) → Nat → Nat → Except (List Char) (List Char)
  | [], _, _ => Except.error (timeoutMessage responseTimeout)
  | text :: rest, previousLength, stableCount =>
    let trimmedText := trimChars text
    let currentLength := trimmedText.length
    if currentLength == 0 then
      stabilizeLoop responseTimeout copyResult rest 0 0
    else
      let updated :=
        if currentLength == previousLength then (previousLength, stableCount + 1)
        else (currentLength, 0)
      if requiredStableChecks ≤ updated.2 then
        if trimmedText.length == 0 then Except.error emptyResponseMessage
        else
          match copyResult with
          | some copied =>
            if 0 < (trimChars copied).length then Except.ok (trimChars copied)
            else Except.ok trimmedText
          | none => Except.ok trimmedText
      else stabilizeLoop responseTimeout copyResult rest updated.1 updated.2

/-- Observable browser-level steps of `loginInteractive`, at the
granularity the claims speak about. -/
inductive LoginEvent
  | getCreds
  | navigate
  | probe
  | clickLoginButton
  | fillEmail
  | fillPassword
  | submitPassword
  | enterOtp
  | save
deriving DecidableEq

/-- Oracle for one `loginInteractive` run: the credential-provider outcome
and what the page reports at each probe. -/
structure LoginDriver where
  creds : Except (List Char) (List Char × List Char)
  alreadyLoggedIn : Bool
  otpInputsShown : Bool
  otpCode : List Char
  authConfirmed : Bool

/-- Message of the `Verification code was empty` throw (line 303). -/
def emptyCodeMessage : List Char :=
  "Verification code was empty".data

/-- Prefix of the `Login failed` message thrown at line 380 (the dynamic
URL and screenshot path are omitted from the model). -/
def loginFailedMessage : List Char :=
  "Login failed - could not find chat interface".data

/-- `loginInteractive` (lines 202-382) as a trace of `LoginEvent`s plus an
optional thrown error message.  `getCredentials` is awaited first
(line 205); only then the landing page is loaded (line 208) and
`checkIfLoggedIn` probed (line 211); a positive probe saves the session
and returns (lines 212-216) without touching the login form.  Otherwise
credentials are entered and submitted, the OTP flow runs if OTP inputs
appear, and `waitForAuthenticatedSession` decides success (save) or the
`Login failed` throw. -/
def loginInteractiveRun (d : LoginDriver) :
    List LoginEvent × Option (List Char) :=
  match d.creds with
  | Except.error e => ([LoginEvent.getCreds], some e)
  | Except.ok _ =>
    let pre := [LoginEvent.getCreds, LoginEvent.navigate, LoginEvent.probe]
    if d.alreadyLoggedIn then
      (pre ++ [LoginEvent.save], none)
    else
      let entry := [LoginEvent.clickLoginButton, LoginEvent.fillEmail,
                    LoginEvent.fillPassword, LoginEvent.submitPassword]
      if d.otpInputsShown then
        if (stripAllWhitespace d.otpCode).isEmpty then
          (pre ++ entry, some emptyCodeMessage)
        else if d.authConfirmed then
          (pre ++ entry ++ [LoginEvent.enterOtp, LoginEvent.save], none)
        else
          (pre ++ entry ++ [LoginEvent.enterOtp], some loginFailedMessage)
      else if d.authConfirmed then
        (pre ++ entry ++ [LoginEvent.save], none)
      else
        (pre ++ entry, some loginFailedMessage)

/-- Observable steps of `selectModel`, at the granularity the claims speak
about. -/
inductive SelectEvent
  | warnUnrecognized
  | ensureComposer
  | openPicker
  | warnPickerFailed
  | clickOption
  | warnOptionMissing
  | escapeMenu
deriving DecidableEq

/-- Oracle for one `selectModel` run: the current trigger label, whether
the picker menu opens, whether some declared option or fallback is
clickable, and the label shown after a successful click. -/
structure SelectDriver where
  label : Option (List Char)
  pickerOpens : Bool
  optionClickable : Bool
  labelAfterClick : Option (List Char)

/-- `selectModel` (lines 472-519) as a trace of `SelectEvent`s together
with the selector label after the run (the "current model").  An
unrecognized name warns and returns at once (lines 478-481); an already
selected model returns silently (lines 485-488); failures to open the
picker or to find a clickable option warn and leave the selection
unchanged. -/
def selectModelRun (d : SelectDriver) (modelName : List Char) :
    List SelectEvent × Option (List Char) :=
  match resolveModelDefinition modelName with
  | none => ([SelectEvent.warnUnrecognized], d.label)
  | some definition =>
    if isModelAlreadySelected d.label definition then ([], d.label)
    else if !d.pickerOpens then
      ([SelectEvent.ensureComposer, SelectEvent.warnPickerFailed], d.label)
    else if !d.optionClickable then
      ([SelectEvent.ensureComposer, SelectEvent.openPicker,
        SelectEvent.warnOptionMissing, SelectEvent.escapeMenu], d.label)
    else
      ([SelectEvent.ensureComposer, SelectEvent.openPicker,
        SelectEvent.clickOption], d.labelAfterClick)

/-- The per-profile session-state file path
`~/.gpt5-pro-cli/<profile>/browser-state.json` (lines 54 and 104). -/
def browserStatePath (profile : List Char) : List Char :=
  "~/.gpt5-pro-cli/".data ++ profile ++ "/browser-state.json".data

/-- The session-loading step of `initialize` (lines 104-113): the saved
storage state is attached to the new context if and only if the state file
exists (`fs.existsSync`); the file contents are never inspected or
validated, so an existing file is passed through unchanged whatever it
holds.  `fs` maps a path to the contents of the file there, `none` when no
file exists; the result is the storage state handed to the browser
context, `none` meaning a fresh (no saved session) context. -/
def initializeStorageState (fs : List Char → Option (List Char))
    (profile : List Char) : Option (List Char) :=
  match fs (browserStatePath profile) with
  | none => none
  | some contents => some contents

/-! ### Helper lemmas -/

theorem listStartsWith_nil (hay : List Char) :
    listStartsWith hay [] = true := by
  cases hay <;> rfl

theorem listStartsWith_append (pat rest : List Char) :
    listStartsWith (pat ++ rest) pat = true := by
  induction pat with
  | nil => exact listStartsWith_nil rest
  | cons p ps ih => simp [listStartsWith, ih]

theorem containsSub_of_starts (hay pat : List Char)
    (h : listStartsWith hay pat = true) : containsSub hay pat = true := by
  cases hay with
  | nil => simpa [containsSub] using h
  | cons c rest => simp [containsSub, h]

theorem containsSub_append_left (pre hay pat : List Char)
    (h : containsSub hay pat = true) : containsSub (pre ++ hay) pat = true := by
  induction pre with
  | nil => simpa using h
  | cons c cs ih => simp [containsSub, ih]

theorem timeoutMessage_contains_duration (t : Nat) :
    containsSub (timeoutMessage t) (toString t).data = true := by
  unfold timeoutMessage
  rw [List.append_assoc]
  exact containsSub_append_left _ _ _
    (containsSub_of_starts _ _ (listStartsWith_append _ _))

theorem timeoutMessage_ne_empty (t : Nat) :
    timeoutMessage t ≠ emptyResponseMessage := by
  intro h
  have h1 : (timeoutMessage t).head? = some 'R' := by
    unfold timeoutMessage
    have h2 : "Response timeout after ".data =
        'R' :: "esponse timeout after ".data := by decide
    rw [h2]
    simp
  rw [h] at h1
  exact absurd h1 (by decide)

theorem dropWhile_head_false (p : Char → Bool) (l : List Char)
    (c : Char) (cs : List Char) (h : List.dropWhile p l = c :: cs) :
    p c = false := by
  induction l with
  | nil => exact absurd h (by simp)
  | cons a t ih =>
    by_cases hp : p a
    · rw [List.dropWhile_cons_of_pos hp] at h
      exact ih h
    · rw [List.dropWhile_cons_of_neg hp] at h
      cases h
      exact Bool.of_not_eq_true hp

theorem dropWhile_trimChars (l : List Char) :
    List.dropWhile isJsSpace (trimChars l) = trimChars l := by
  rcases List.rdropWhile_prefix isJsSpace (List.dropWhile isJsSpace l) with
    ⟨tail, htail⟩
  cases htc : trimChars l with
  | nil => rfl
  | cons c cs =>
    have hA : List.dropWhile isJsSpace l = c :: (cs ++ tail) := by
      rw [← htail]
      have : trimChars l =
          List.rdropWhile isJsSpace (List.dropWhile isJsSpace l) := rfl
      rw [this] at htc
      rw [htc]
      rfl
    have hc : isJsSpace c = false := dropWhile_head_false isJsSpace l c _ hA
    rw [List.dropWhile_cons_of_neg (by simp [hc])]

theorem trimChars_idem (l : List Char) :
    trimChars (trimChars l) = trimChars l := by
  show List.rdropWhile isJsSpace (List.dropWhile isJsSpace (trimChars l)) =
    trimChars l
  rw [dropWhile_trimChars]
  show List.rdropWhile isJsSpace
    (List.rdropWhile isJsSpace (List.dropWhile isJsSpace l)) = trimChars l
  rw [List.rdropWhile_idempotent]
  rfl

theorem catalogTokensLower :
    ∀ e ∈ modelDefinitions, ∀ t ∈ e.2.verifyTokens, toLowerChars t = t := by
  decide

/-! ### Claim theorems -/

/-- C1 counterexample: on the simulated sequence of observed trimmed-text
lengths `[0, 5, 5, 5, 8, 8, 8, 8]`, the stabilization loop of `query` has
NOT finalized after the 7th sample: if the deadline elapses right after
the 7th poll, the run ends in the timeout error rather than returning the
length-8 content, refuting finalization at the 7th sample. -/
theorem stabilizeLoop_seq_not_final_at_seventh :
    stabilizeLoop 60000 none
      ["".data, "aaaaa".data, "aaaaa".data, "aaaaa".data,
       "aaaaaaaa".data, "aaaaaaaa".data, "aaaaaaaa".data] 0 0 =
      Except.error (timeoutMessage 60000) := by rfl

/-- C1 (amended): on the simulated sequence of observed trimmed-text
lengths `[0, 5, 5, 5, 8, 8, 8, 8]` sampled once per poll, finalization
occurs at the 8th sample (the counter needs three consecutive unchanged
comparisons after the length-8 content first appears at the 5th sample),
and the returned text is that length-8 content; after only 7 samples no
finalization has occurred. -/
theorem stabilizeLoop_seq_final_at_eighth :
    stabilizeLoop 60000 none
      ["".data, "aaaaa".data, "aaaaa".data, "aaaaa".data,
       "aaaaaaaa".data, "aaaaaaaa".data, "aaaaaaaa".data, "aaaaaaaa".data]
      0 0 = Except.ok "aaaaaaaa".data ∧
    stabilizeLoop 60000 none
      ["".data, "aaaaa".data, "aaaaa".data, "aaaaa".data,
       "aaaaaaaa".data, "aaaaaaaa".data, "aaaaaaaa".data] 0 0 =
      Except.error (timeoutMessage 60000) := ⟨by rfl, by rfl⟩

/-- C2: the effective response deadline equals
`max(configuredTimeout, longRunningFloor)`: whenever the normalized model
name contains a slow-family token (`requiresLongTimeout`), the result is
`max base longRunningFloorMs` and hence at least the 30-minute floor even
when `base` is smaller; for any unrelated model the result is exactly the
configured timeout `base`. -/
theorem getResponseTimeout_floor_spec (base : Nat) (model : List Char) :
    (requiresLongTimeout model = true →
      getResponseTimeout base model = max base longRunningFloorMs ∧
      longRunningFloorMs ≤ getResponseTimeout base model) ∧
    (requiresLongTimeout model = false →
      getResponseTimeout base model = base) := by
  constructor
  · intro h
    have hval : getResponseTimeout base model = max base longRunningFloorMs := by
      simp [getResponseTimeout, h]
    exact ⟨hval, by rw [hval]; exact le_max_right _ _⟩
  · intro h
    simp [getResponseTimeout, h]

/-- Witness for C2: `GPT-5 Pro` is slow-family and gets at least the
30-minute floor even with a 1000 ms configured timeout; `gpt-4o` is not
and gets exactly the configured timeout. -/
theorem getResponseTimeout_floor_spec_witness :
    requiresLongTimeout "GPT-5 Pro".data = true ∧
    longRunningFloorMs ≤ getResponseTimeout 1000 "GPT-5 Pro".data ∧
    requiresLongTimeout "gpt-4o".data = false ∧
    getResponseTimeout 1000 "gpt-4o".data = 1000 :=
  ⟨by decide,
   ((getResponseTimeout_floor_spec 1000 "GPT-5 Pro".data).1 (by decide)).2,
   by decide,
   (getResponseTimeout_floor_spec 1000 "gpt-4o".data).2 (by decide)⟩

/-- C3: model-name resolution is canonical under normalization: any two
spellings with the same normalization (case changes and
whitespace/underscore-vs-dash separators disappear under
`normalizeModelName`) resolve to the same catalog entry; every alias
resolves to the same entry as its target; and every catalog key resolves
to its own entry (idempotence). -/
theorem resolveModelDefinition_normalization_spec :
    (∀ s₁ s₂ : List Char, normalizeModelName s₁ = normalizeModelName s₂ →
      resolveModelDefinition s₁ = resolveModelDefinition s₂) ∧
    (∀ a ∈ aliasPairs,
      resolveModelDefinition a.1 = resolveModelDefinition a.2) ∧
    (∀ e ∈ modelDefinitions, resolveModelDefinition e.1 = some e.2) := by
  refine ⟨?_, by decide, by decide⟩
  intro s₁ s₂ h
  unfold resolveModelDefinition
  rw [h]

/-- Witness for C3: a case/whitespace variant and an alias of concrete
model names resolve identically. -/
theorem resolveModelDefinition_normalization_spec_witness :
    normalizeModelName "GPT 5 Pro".data = normalizeModelName "gpt-5-pro".data ∧
    resolveModelDefinition "GPT 5 Pro".data =
      resolveModelDefinition "gpt-5-pro".data ∧
    ("gpt5".data, "gpt-5".data) ∈ aliasPairs ∧
    resolveModelDefinition "gpt5".data = resolveModelDefinition "gpt-5".data :=
  ⟨by decide,
   resolveModelDefinition_normalization_spec.1 "GPT 5 Pro".data
     "gpt-5-pro".data (by decide),
   by decide,
   resolveModelDefinition_normalization_spec.2.1 ("gpt5".data, "gpt-5".data)
     (by decide)⟩

/-- C5 counterexample: a present-but-corrupt state file is NOT treated as
"no saved session": `initialize` only checks `fs.existsSync`, so the
corrupt contents are attached as the context storage state (`some ...`,
not `none`), refuting the claim as far as it covers corrupt files. -/
theorem initializeStorageState_corrupt_used :
    initializeStorageState
        (fun path =>
          if path = browserStatePath "default".data then
            some "this is not valid json".data
          else none)
        "default".data = some "this is not valid json".data ∧
    initializeStorageState
        (fun path =>
          if path = browserStatePath "default".data then
            some "this is not valid json".data
          else none)
        "default".data ≠ none := by
  have h1 : initializeStorageState
      (fun path =>
        if path = browserStatePath "default".data then
          some "this is not valid json".data
        else none)
      "default".data = some "this is not valid json".data := by rfl
  exact ⟨h1, by rw [h1]; exact fun h => Option.noConfusion h⟩

/-- C5 (amended): at driver initialization, a missing session-state file
is not fatal: for every profile and file system, when no state file exists
the storage-state option is `none` ("no saved session", fresh login path)
and the step never throws (it is a total function); but an existing file
is always attached unchanged, whatever its contents — corrupt contents are
not detected or treated as absent. -/
theorem initializeStorageState_spec :
    (∀ (fs : List Char → Option (List Char)) (profile : List Char),
      fs (browserStatePath profile) = none →
      initializeStorageState fs profile = none) ∧
    (∀ (fs : List Char → Option (List Char)) (profile contents : List Char),
      fs (browserStatePath profile) = some contents →
      initializeStorageState fs profile = some contents) := by
  constructor
  · intro fs profile h
    unfold initializeStorageState
    rw [h]
  · intro fs profile contents h
    unfold initializeStorageState
    rw [h]

/-- Witness for C5: on the empty file system, the `default` profile loads
no session. -/
theorem initializeStorageState_spec_witness :
    (fun _ : List Char => (none : Option (List Char)))
        (browserStatePath "default".data) = none ∧
    initializeStorageState (fun _ => none) "default".data = none :=
  ⟨rfl, initializeStorageState_spec.1 (fun _ => none) "default".data rfl⟩

/-- C6: when the session-detection probe right after loading the landing
page is positive, `loginInteractive` saves the session and terminates
successfully, and the trace contains no credential-entry step (no login
click, no email fill, no password fill). -/
theorem loginInteractive_already_authenticated (d : LoginDriver)
    (c : List Char × List Char) (hc : d.creds = Except.ok c)
    (h : d.alreadyLoggedIn = true) :
    loginInteractiveRun d =
      ([LoginEvent.getCreds, LoginEvent.navigate, LoginEvent.probe,
        LoginEvent.save], none) ∧
    LoginEvent.save ∈ (loginInteractiveRun d).1 ∧
    LoginEvent.clickLoginButton ∉ (loginInteractiveRun d).1 ∧
    LoginEvent.fillEmail ∉ (loginInteractiveRun d).1 ∧
    LoginEvent.fillPassword ∉ (loginInteractiveRun d).1 ∧
    (loginInteractiveRun d).2 = none := by
  have hrun : loginInteractiveRun d =
      ([LoginEvent.getCreds, LoginEvent.navigate, LoginEvent.probe,
        LoginEvent.save], none) := by
    unfold loginInteractiveRun
    rw [hc]
    simp [h]
  refine ⟨hrun, ?_, ?_, ?_, ?_, ?_⟩ <;> rw [hrun] <;> simp

/-- Witness for C6: a concrete driver that reports an authenticated
session immediately after navigation. -/
theorem loginInteractive_already_authenticated_witness :
    loginInteractiveRun
      ⟨Except.ok ("user@example.com".data, "hunter2".data),
        true, false, [], true⟩ =
      ([LoginEvent.getCreds, LoginEvent.navigate, LoginEvent.probe,
        LoginEvent.save], none) :=
  (loginInteractive_already_authenticated
    ⟨Except.ok ("user@example.com".data, "hunter2".data), true, false, [], true⟩
    ("user@example.com".data, "hunter2".data) rfl rfl).1

/-- C7: an unrecognized model name is non-fatal: `resolveModelDefinition`
returns `none` (it is a total function, so it never throws), and
`selectModel` merely warns, leaves the current selector label unchanged,
and performs no picker interaction. -/
theorem selectModel_unrecognized_nonfatal (modelName : List Char)
    (h : resolveModelDefinition modelName = none) (d : SelectDriver) :
    selectModelRun d modelName = ([SelectEvent.warnUnrecognized], d.label) ∧
    (selectModelRun d modelName).2 = d.label ∧
    SelectEvent.openPicker ∉ (selectModelRun d modelName).1 ∧
    SelectEvent.clickOption ∉ (selectModelRun d modelName).1 := by
  have hrun : selectModelRun d modelName =
      ([SelectEvent.warnUnrecognized], d.label) := by
    unfold selectModelRun
    rw [h]
  refine ⟨hrun, ?_, ?_, ?_⟩ <;> rw [hrun] <;> simp

/-- Witness for C7: the unrecognized name `claude-3` resolves to `none`
and leaves a concrete driver untouched. -/
theorem selectModel_unrecognized_nonfatal_witness :
    resolveModelDefinition "claude-3".data = none ∧
    selectModelRun ⟨some "ChatGPT 5 Pro".data, true, true, none⟩
        "claude-3".data =
      ([SelectEvent.warnUnrecognized], some "ChatGPT 5 Pro".data) :=
  ⟨by decide,
   (selectModel_unrecognized_nonfatal "claude-3".data (by decide)
     ⟨some "ChatGPT 5 Pro".data, true, true, none⟩).1⟩

/-- C8: for every current selector label and every catalog model
definition, the "already selected" check returns `true` if and only if the
label contains at least one of the definition verification substrings,
compared case-insensitively (both sides lowered). -/
theorem isModelAlreadySelected_iff_token (label : List Char)
    (definition : ModelDefinition)
    (hmem : definition ∈ modelDefinitions.map Prod.snd) :
    (isModelAlreadySelected (some label) definition = true ↔
      ∃ t ∈ definition.verifyTokens,
        containsSub (toLowerChars label) (toLowerChars t) = true) := by
  have hlow : ∀ t ∈ definition.verifyTokens, toLowerChars t = t := by
    rcases List.mem_map.mp hmem with ⟨e, he, rfl⟩
    exact catalogTokensLower e he
  simp only [isModelAlreadySelected, List.any_eq_true]
  constructor
  · rintro ⟨t, ht, hc⟩
    exact ⟨t, ht, by rw [hlow t ht]; exact hc⟩
  · rintro ⟨t, ht, hc⟩
    refine ⟨t, ht, ?_⟩
    rw [hlow t ht] at hc
    exact hc

/-- Witness for C8: the `gpt-5-pro` catalog entry against the label
`ChatGPT 5 Pro` (its token `pro` occurs case-insensitively). -/
theorem isModelAlreadySelected_iff_token_witness :
    isModelAlreadySelected (some "ChatGPT 5 Pro".data)
      ⟨"gpt-5-pro".data, "GPT-5 Pro".data, ["pro".data],
        ["model-switcher-gpt-5-pro".data], ["Pro".data], none⟩ = true :=
  (isModelAlreadySelected_iff_token "ChatGPT 5 Pro".data
    ⟨"gpt-5-pro".data, "GPT-5 Pro".data, ["pro".data],
      ["model-switcher-gpt-5-pro".data], ["Pro".data], none⟩
    (by decide)).mpr ⟨"pro".data, by decide, by decide⟩

/-- C10: `loginInteractive` awaits the credential provider before any
browser step: in every run the first event is `getCreds`, and when
`getCredentials` throws, the run fails with that error before navigating
or probing the page — even if the page would have shown an authenticated
session. -/
theorem loginInteractive_credentials_first :
    (∀ (d : LoginDriver) (e : List Char), d.creds = Except.error e →
      loginInteractiveRun d = ([LoginEvent.getCreds], some e) ∧
      (loginInteractiveRun d).2 = some e ∧
      LoginEvent.navigate ∉ (loginInteractiveRun d).1 ∧
      LoginEvent.probe ∉ (loginInteractiveRun d).1) ∧
    (∀ d : LoginDriver,
      (loginInteractiveRun d).1.head? = some LoginEvent.getCreds) := by
  constructor
  · intro d e hc
    have hrun : loginInteractiveRun d = ([LoginEvent.getCreds], some e) := by
      unfold loginInteractiveRun
      rw [hc]
    refine ⟨hrun, ?_, ?_, ?_⟩ <;> rw [hrun] <;> simp
  · intro d
    cases hc : d.creds with
    | error e => simp [loginInteractiveRun, hc]
    | ok c =>
      simp only [loginInteractiveRun, hc]
      by_cases h1 : d.alreadyLoggedIn
      · simp [h1]
      · by_cases h2 : d.otpInputsShown
        · by_cases h3 : (stripAllWhitespace d.otpCode).isEmpty
          · simp [h1, h2, h3]
          · by_cases h4 : d.authConfirmed <;> simp [h1, h2, h3, h4]
        · by_cases h4 : d.authConfirmed <;> simp [h1, h2, h4]

/-- Witness for C10: a failing credential provider aborts the run with its
error even though the driver would have reported an authenticated page. -/
theorem loginInteractive_credentials_first_witness :
    loginInteractiveRun ⟨Except.error "boom".data, true, false, [], true⟩ =
      ([LoginEvent.getCreds], some "boom".data) :=
  (loginInteractive_credentials_first.1
    ⟨Except.error "boom".data, true, false, [], true⟩ "boom".data rfl).1

theorem arrivalLoop_const_exit (initial deadline poll : Nat) :
    ∀ (fuel t : Nat), deadline ≤ t + fuel * poll → t < deadline + poll →
      ∃ texit,
        arrivalLoop (fun _ => initial) initial deadline poll t fuel =
          some (texit, false) ∧ deadline ≤ texit ∧ texit < deadline + poll := by
  intro fuel
  induction fuel with
  | zero =>
    intro t h1 h2
    refine ⟨t, ?_, by simpa using h1, h2⟩
    unfold arrivalLoop
    rw [if_neg (by omega)]
  | succ n ih =>
    intro t h1 h2
    by_cases hlt : t < deadline
    · have harith : deadline ≤ (t + poll) + n * poll := by
        have hmul : t + (n + 1) * poll = (t + poll) + n * poll := by ring
        omega
      rcases ih (t + poll) harith (by omega) with ⟨texit, hrun, hge, hlt2⟩
      refine ⟨texit, ?_, hge, hlt2⟩
      unfold arrivalLoop
      rw [if_pos hlt, if_neg (by simp)]
      exact hrun
    · refine ⟨t, ?_, by omega, h2⟩
      unfold arrivalLoop
      rw [if_neg hlt]

/-- C4: if no new assistant message ever arrives (the count stays at its
baseline forever), the arrival phase of `query` exits its loop only at the
first poll boundary at or past the deadline — after at least the full
`deadline` of elapsed wait and strictly less than one poll interval beyond
it, so neither immediately nor indefinitely — and `query` then throws the
timeout error whose message contains the configured duration. -/
theorem query_arrival_timeout_spec (initial deadline poll : Nat)
    (hdl : 0 < deadline) (hpoll : 0 < poll) :
    ∃ texit,
      arrivalLoop (fun _ => initial) initial deadline poll 0 deadline =
        some (texit, false) ∧
      deadline ≤ texit ∧ texit < deadline + poll ∧
      queryArrival (fun _ => initial) initial deadline poll deadline =
        some (Except.error (timeoutMessage deadline)) ∧
      containsSub (timeoutMessage deadline) (toString deadline).data = true := by
  have hfuel : deadline ≤ 0 + deadline * poll := by
    have h1 : 1 ≤ poll := hpoll
    calc deadline = deadline * 1 := by ring
    _ ≤ deadline * poll := Nat.mul_le_mul_left deadline h1
    _ = 0 + deadline * poll := by ring
  rcases arrivalLoop_const_exit initial deadline poll deadline 0 hfuel
      (by omega) with ⟨texit, hrun, hge, hlt⟩
  refine ⟨texit, hrun, hge, hlt, ?_,
    timeoutMessage_contains_duration deadline⟩
  unfold queryArrival
  rw [hrun]
  simp

/-- Witness for C4: with a 5 ms deadline and 2 ms poll interval and a count
frozen at the baseline, the arrival phase of `query` ends in the timeout
error carrying the configured duration. -/
theorem query_arrival_timeout_spec_witness :
    queryArrival (fun _ => 0) 0 5 2 5 =
      some (Except.error (timeoutMessage 5)) := by
  rcases query_arrival_timeout_spec 0 5 2 (by decide) (by decide) with
    ⟨texit, hrun, hge, hlt, hq, hcontains⟩
  exact hq

theorem stabilizeLoop_result (rt : Nat) (cr : Option (List Char)) :
    ∀ (obs : List (List Char)) (pl sc : Nat),
      (∃ s, stabilizeLoop rt cr obs pl sc = Except.ok s ∧
          0 < s.length ∧ trimChars s = s) ∨
      stabilizeLoop rt cr obs pl sc = Except.error (timeoutMessage rt) := by
  intro obs
  induction obs with
  | nil => intro pl sc; exact Or.inr rfl
  | cons text rest ih =>
    intro pl sc
    simp only [stabilizeLoop]
    by_cases h0 : ((trimChars text).length == 0) = true
    · rw [if_pos h0]
      exact ih 0 0
    · rw [if_neg h0]
      have hpos : 0 < (trimChars text).length := by
        simp only [beq_iff_eq] at h0
        omega
      split <;> split
      · cases cr with
        | none => exact Or.inl ⟨trimChars text, rfl, hpos, trimChars_idem text⟩
        | some copied =>
          dsimp only
          by_cases hcp : 0 < (trimChars copied).length
          · rw [if_pos hcp]
            exact Or.inl
              ⟨trimChars copied, rfl, hcp, trimChars_idem copied⟩
          · rw [if_neg hcp]
            exact Or.inl ⟨trimChars text, rfl, hpos, trimChars_idem text⟩
      · exact ih _ _
      · cases cr with
        | none => exact Or.inl ⟨trimChars text, rfl, hpos, trimChars_idem text⟩
        | some copied =>
          dsimp only
          by_cases hcp : 0 < (trimChars copied).length
          · rw [if_pos hcp]
            exact Or.inl
              ⟨trimChars copied, rfl, hcp, trimChars_idem copied⟩
          · rw [if_neg hcp]
            exact Or.inl ⟨trimChars text, rfl, hpos, trimChars_idem text⟩
      · exact ih _ _

/-- C9: for every observation sequence and every copy-affordance outcome,
the stabilization phase of `query` never takes the `Empty response
received` branch: it either returns a string that is non-empty (and
already trimmed, hence non-empty after trimming) or throws the timeout
error.  An observation with empty trimmed text only resets the stability
counter and is never finalized. -/
theorem stabilizeLoop_no_empty_result (responseTimeout : Nat)
    (copyResult : Option (List Char)) (obs : List (List Char)) :
    (∀ (text : List Char) (rest : List (List Char)) (pl sc : Nat),
      (trimChars text).length = 0 →
      stabilizeLoop responseTimeout copyResult (text :: rest) pl sc =
        stabilizeLoop responseTimeout copyResult rest 0 0) ∧
    ((∃ s, stabilizeLoop responseTimeout copyResult obs 0 0 = Except.ok s ∧
        0 < s.length ∧ trimChars s = s ∧ 0 < (trimChars s).length) ∨
      stabilizeLoop responseTimeout copyResult obs 0 0 =
        Except.error (timeoutMessage responseTimeout)) ∧
    stabilizeLoop responseTimeout copyResult obs 0 0 ≠
      Except.error emptyResponseMessage := by
  have hmain := stabilizeLoop_result responseTimeout copyResult obs 0 0
  refine ⟨?_, ?_, ?_⟩
  · intro text rest pl sc hempty
    simp only [stabilizeLoop]
    rw [if_pos (by simp [hempty])]
  · rcases hmain with ⟨s, hs, hlen, hidem⟩ | herr
    · exact Or.inl ⟨s, hs, hlen, hidem, by rw [hidem]; exact hlen⟩
    · exact Or.inr herr
  · rcases hmain with ⟨s, hs, hlen, hidem⟩ | herr
    · rw [hs]
      intro hcontra
      cases hcontra
    · rw [herr]
      intro hcontra
      injection hcontra with hmsg
      exact timeoutMessage_ne_empty responseTimeout hmsg

/-- Witness for C9: an all-whitespace observation resets the state and the
loop proceeds with the remaining observations from a zeroed counter. -/
theorem stabilizeLoop_no_empty_result_witness :
    (trimChars "  ".data).length = 0 ∧
    stabilizeLoop 60000 none ["  ".data, "ok".data] 5 2 =
      stabilizeLoop 60000 none ["ok".data] 0 0 :=
  ⟨by decide,
   (stabilizeLoop_no_empty_result 60000 none ["  ".data, "ok".data]).1
     "  ".data ["ok".data] 5 2 (by decide)⟩
